import Mathlib

/-!
Shallow embedding of the core of `tl-buddy` (`src/index.js`): the tracking
table, the poll scheduler queue, the per-subscriber batching and dedup logic,
and the Discord command handlers, together with theorems settling the spec
claims about them.

Notification delivery (`sendDiscordMessage`) is modelled as an emitted
`SinkCall`; the opaque message id that Discord would return is supplied by an
abstract `sendId : String → String` parameter.  The YouTube API collaborators
(`fetchChatId`, `fetchMessages`) are modelled by passing their results in as
arguments, since the core only ever consumes their resolved values.
-/

namespace TLBuddy

/-- `YOUTUBE_MESSAGE_TYPE` from the source: text-only chat messages. -/
def YOUTUBE_MESSAGE_TYPE : String := "textMessageEvent"

/-- `DISCORD_TL_MESSAGE_BATCH_MAX` from the source. -/
def DISCORD_TL_MESSAGE_BATCH_MAX : Nat := 5

/-- `DEFAULT_CHAT_PREFIXES` from the source. -/
def DEFAULT_CHAT_PREFIXES : List String := ["[EN", "EN]", "EN:"]

/-- `LIVE_CHAT_REFRESH_TIME` from the source (milliseconds). -/
def LIVE_CHAT_REFRESH_TIME : Int := 20000

/-- lodash `_.isEmpty` restricted to an optional string: `undefined`, `null`
and `""` are all empty. -/
def jsIsEmptyOptStr : Option String → Bool
  | none => true
  | some s => s.isEmpty

/-- One YouTube live chat message as consumed by the core
(`message.id`, `message.authorDetails.displayName`, `message.snippet.type`,
`message.snippet.displayMessage`); the nested source shape is flattened. -/
structure ChatMessage where
  id : String
  authorDisplayName : String
  snippetType : String
  displayMessage : String
deriving DecidableEq, Repr

/-- JavaScript `haystack.includes(needle)`: substring containment, i.e. the
needle's character list is a contiguous infix of the haystack's. -/
def jsIncludes (haystack needle : String) : Bool :=
  decide (needle.data <:+: haystack.data)

/-- JavaScript `toLowerCase()`, modelled character-wise (ASCII case fold). -/
def jsToLower (s : String) : String :=
  ⟨s.data.map Char.toLower⟩

/-- The per-message filter inside `prepareBatchTLMessages`: messages whose
snippet type is not `textMessageEvent` are discarded (super chats/stickers);
otherwise the message matches iff
`messageText.toLowerCase().includes(prefix.toLowerCase())` holds for some
token of `chatPrefixes` (`_.findIndex(...) !== -1`). -/
def matchesEvent (chatPrefixes : List String) (message : ChatMessage) : Bool :=
  if message.snippetType == YOUTUBE_MESSAGE_TYPE then
    chatPrefixes.any (fun tok => jsIncludes (jsToLower message.displayMessage) (jsToLower tok))
  else
    false

/-- One element of the list produced by `prepareBatchTLMessages`. -/
structure Batch where
  message : String
  postIds : List String
deriving DecidableEq, Repr

/-- The display line built for one matching message:
`> **${authorDetails.displayName}** - ${messageText}`. -/
def renderMessage (m : ChatMessage) : String :=
  "> **" ++ m.authorDisplayName ++ "** - " ++ m.displayMessage

/-- The accumulator loop of `prepareBatchTLMessages` (its `forEach` over
`messages`, with `currMessages`/`currPostIds` threaded explicitly, and the
trailing partial-batch flush).  Note the faithful rendering of the full-batch
branch: the source seals the full batch and resets the accumulators, but never
pushes the current (matching) message into either accumulator, so that message
is dropped. -/
def prepareBatchAux (maxBatch : Nat) (chatPrefixes : List String) :
    List ChatMessage → List String → List String → List Batch
  | [], currMessages, currPostIds =>
      if currPostIds.length > 0 then
        [{ message := String.intercalate "\n" currMessages, postIds := currPostIds }]
      else
        []
  | message :: rest, currMessages, currPostIds =>
      if matchesEvent chatPrefixes message then
        if currPostIds.length < maxBatch then
          prepareBatchAux maxBatch chatPrefixes rest
            (currMessages ++ [renderMessage message]) (currPostIds ++ [message.id])
        else
          { message := String.intercalate "\n" currMessages, postIds := currPostIds } ::
            prepareBatchAux maxBatch chatPrefixes rest [] []
      else
        prepareBatchAux maxBatch chatPrefixes rest currMessages currPostIds

/-- `prepareBatchTLMessages(messages, chatPrefixes)` from the source. -/
def prepareBatchTLMessages (messages : List ChatMessage) (chatPrefixes : List String) :
    List Batch :=
  prepareBatchAux DISCORD_TL_MESSAGE_BATCH_MAX chatPrefixes messages [] []

/-- Membership in the `dropLast` of a cons splits into the head (when the tail
is nonempty) or the tail's `dropLast`. -/
theorem mem_dropLast_cons {α : Type} {b a : α} {l : List α}
    (h : b ∈ (a :: l).dropLast) : b = a ∨ b ∈ l.dropLast := by
  cases l with
  | nil => simp at h
  | cons c cs =>
    rw [List.dropLast_cons₂] at h
    exact List.mem_cons.mp h

/-- Every batch emitted by the accumulator loop covers at most `maxBatch`
events, provided the running accumulator respects the bound. -/
theorem prepareBatchAux_length_le (maxBatch : Nat) (chatPrefixes : List String)
    (msgs : List ChatMessage) :
    ∀ (currM currP : List String), currP.length ≤ maxBatch →
      ∀ b ∈ prepareBatchAux maxBatch chatPrefixes msgs currM currP,
        b.postIds.length ≤ maxBatch := by
  induction msgs with
  | nil =>
    intro currM currP h b hb
    simp only [prepareBatchAux] at hb
    split at hb
    · simp at hb
      rw [hb]
      exact h
    · simp at hb
  | cons m rest ih =>
    intro currM currP h b hb
    simp only [prepareBatchAux] at hb
    split_ifs at hb with hm hlt
    · exact ih _ _ (by simp; omega) b hb
    · rcases List.mem_cons.mp hb with h1 | h1
      · rw [h1]
        exact h
      · exact ih _ _ (by simp) b h1
    · exact ih _ _ h b hb

/-- Every batch except possibly the last one covers exactly `maxBatch` events:
batches other than the trailing one are only ever sealed when full. -/
theorem prepareBatchAux_dropLast_eq (maxBatch : Nat) (chatPrefixes : List String)
    (msgs : List ChatMessage) :
    ∀ (currM currP : List String), currP.length ≤ maxBatch →
      ∀ b ∈ (prepareBatchAux maxBatch chatPrefixes msgs currM currP).dropLast,
        b.postIds.length = maxBatch := by
  induction msgs with
  | nil =>
    intro currM currP h b hb
    simp only [prepareBatchAux] at hb
    split at hb <;> simp at hb
  | cons m rest ih =>
    intro currM currP h b hb
    simp only [prepareBatchAux] at hb
    split_ifs at hb with hm hlt
    · exact ih _ _ (by simp; omega) b hb
    · rcases mem_dropLast_cons hb with h1 | h1
      · rw [h1]
        exact le_antisymm h (not_lt.mp hlt)
      · exact ih _ _ (by simp) b h1
    · exact ih _ _ h b hb

/-- When `maxBatch` is positive, no emitted batch covers zero events: the
trailing flush is guarded by `currPostIds.length > 0` and sealed batches are
full. -/
theorem prepareBatchAux_length_pos (maxBatch : Nat) (chatPrefixes : List String)
    (msgs : List ChatMessage) (hpos : 0 < maxBatch) :
    ∀ (currM currP : List String), currP.length ≤ maxBatch →
      ∀ b ∈ prepareBatchAux maxBatch chatPrefixes msgs currM currP,
        0 < b.postIds.length := by
  induction msgs with
  | nil =>
    intro currM currP h b hb
    simp only [prepareBatchAux] at hb
    split at hb
    · simp at hb
      rw [hb]
      assumption
    · simp at hb
  | cons m rest ih =>
    intro currM currP h b hb
    simp only [prepareBatchAux] at hb
    split_ifs at hb with hm hlt
    · exact ih _ _ (by simp; omega) b hb
    · rcases List.mem_cons.mp hb with h1 | h1
      · rw [h1]
        simp only
        omega
      · exact ih _ _ (by simp) b h1
    · exact ih _ _ h b hb

/-- Batches produced by `prepareBatchTLMessages` always cover at least one
source message id. -/
theorem prepareBatchTLMessages_postIds_ne_nil (messages : List ChatMessage)
    (chatPrefixes : List String) :
    ∀ b ∈ prepareBatchTLMessages messages chatPrefixes, b.postIds ≠ [] := by
  intro b hb
  have := prepareBatchAux_length_pos DISCORD_TL_MESSAGE_BATCH_MAX chatPrefixes messages
    (by simp [DISCORD_TL_MESSAGE_BATCH_MAX]) [] [] (by simp) b hb
  intro hnil
  rw [hnil] at this
  simp at this

/-- C5: the Prefix Matcher returns false for every event whose snippet type is
not the text-message type (monetary/sticker events are never relayed), and for
text events it returns true exactly when the event's text, compared
case-insensitively, contains at least one of the prefix tokens as a
substring. -/
theorem prefix_matcher_spec (tokens : List String) (message : ChatMessage)
    (hne : tokens ≠ []) :
    (message.snippetType ≠ YOUTUBE_MESSAGE_TYPE → matchesEvent tokens message = false) ∧
    (message.snippetType = YOUTUBE_MESSAGE_TYPE →
      (matchesEvent tokens message = true ↔
        ∃ tok ∈ tokens,
          List.IsInfix (jsToLower tok).data (jsToLower message.displayMessage).data)) := by
  constructor
  · intro h
    simp [matchesEvent, h]
  · intro h
    simp [matchesEvent, h, jsIncludes, List.any_eq_true]

/-- A monetary (super chat) event, as in the spec's scenario. -/
def donationEvent : ChatMessage :=
  { id := "2", authorDisplayName := "b", snippetType := "donation",
    displayMessage := "$5 super chat" }

theorem prefix_matcher_spec_witness :
    (["[EN", "EN:"] ≠ ([] : List String)) ∧
    donationEvent.snippetType ≠ YOUTUBE_MESSAGE_TYPE ∧
    matchesEvent ["[EN", "EN:"] donationEvent = false :=
  ⟨by decide, by decide,
   (prefix_matcher_spec ["[EN", "EN:"] donationEvent (by decide)).1 (by decide)⟩

/-- C4: for every input sequence, prefix set and positive `maxBatch`, every
batch produced by the Batcher (run from empty accumulators) covers at most
`maxBatch` events, and every batch except possibly the last covers exactly
`maxBatch` events; the deployed batcher instantiates the bound with
`DISCORD_TL_MESSAGE_BATCH_MAX = 5`. -/
theorem batch_size_bounds (messages : List ChatMessage) (tokens : List String)
    (maxBatch : Nat) (hpos : 0 < maxBatch) :
    (∀ b ∈ prepareBatchAux maxBatch tokens messages [] [], b.postIds.length ≤ maxBatch) ∧
    (∀ b ∈ (prepareBatchAux maxBatch tokens messages [] []).dropLast,
        b.postIds.length = maxBatch) ∧
    (∀ b ∈ prepareBatchTLMessages messages tokens,
        b.postIds.length ≤ DISCORD_TL_MESSAGE_BATCH_MAX) :=
  ⟨prepareBatchAux_length_le maxBatch tokens messages [] [] (by simp),
   prepareBatchAux_dropLast_eq maxBatch tokens messages [] [] (by simp),
   prepareBatchAux_length_le DISCORD_TL_MESSAGE_BATCH_MAX tokens messages [] [] (by simp)⟩

/-- A matching text message with the given id. -/
def mkEN (i : String) : ChatMessage :=
  { id := i, authorDisplayName := "a", snippetType := "textMessageEvent",
    displayMessage := "[EN] m" }

/-- Six consecutive matching messages. -/
def sixMessages : List ChatMessage :=
  [mkEN "1", mkEN "2", mkEN "3", mkEN "4", mkEN "5", mkEN "6"]

theorem batch_size_bounds_witness :
    0 < 2 ∧
    (∀ b ∈ prepareBatchAux 2 DEFAULT_CHAT_PREFIXES sixMessages [] [],
        b.postIds.length ≤ 2) :=
  ⟨by decide, (batch_size_bounds sixMessages DEFAULT_CHAT_PREFIXES 2 (by decide)).1⟩

/-- C2 (code bug): with the deployed batch size of 5, the sixth consecutive
matching event takes the seal-and-reset branch of `prepareBatchTLMessages`,
which never pushes the current message into the new accumulators, so the event
matches the prefix filter yet appears in no output batch. -/
theorem batcher_drops_sixth_matching_event :
    matchesEvent DEFAULT_CHAT_PREFIXES (mkEN "6") = true ∧
    (prepareBatchTLMessages sixMessages DEFAULT_CHAT_PREFIXES).map Batch.postIds
      = [["1", "2", "3", "4", "5"]] ∧
    (∀ b ∈ prepareBatchTLMessages sixMessages DEFAULT_CHAT_PREFIXES,
        "6" ∉ b.postIds) := by
  decide

/-- One entry of a subscriber's `postedMessages` ledger: the Discord message id
returned by the sink and all YouTube message ids rolled up into that post. -/
structure PostedMessage where
  discordMessageId : String
  youtubeMessageIds : List String
deriving DecidableEq, Repr

/-- One subscriber record of a tracked video.  `discordChannel` is the opaque
delivery handle (the channel object in the source). -/
structure Subscriber where
  discordChannelId : String
  discordChannel : String
  chatPrefixes : List String
  postedMessages : List PostedMessage
deriving DecidableEq, Repr

/-- One call to the notification sink (`sendDiscordMessage`). -/
structure SinkCall where
  channel : String
  text : String
deriving DecidableEq, Repr

/-- The ledger lookup of `processYTChatMessages`: the nested
`_.findIndex(sub.postedMessages, ...) !== -1` test, true iff some previously
recorded delivery contains a YouTube message id that occurs in the batch's
`postIds`. -/
def alreadyDelivered (postedMessages : List PostedMessage) (batch : Batch) : Bool :=
  postedMessages.any fun msg =>
    msg.youtubeMessageIds.any fun ytMsgId =>
      batch.postIds.any fun postId => ytMsgId == postId

/-- The `batchedMessages.forEach(async ...)` loop of `processYTChatMessages`
for one subscriber.  The async callbacks all run their ledger lookup
synchronously, before any of the awaited sends resolves, so every lookup reads
the ledger as of loop entry; the ledger records for the surviving batches are
appended when the sends resolve (before the next poll of this stream; record
order does not affect the lookup).  The sink's opaque message id is supplied by
`sendId`. -/
def deliverBatches (sendId : String → String) (sub : Subscriber)
    (batchedMessages : List Batch) : Subscriber × List SinkCall :=
  let survivors := batchedMessages.filter (fun b => !(alreadyDelivered sub.postedMessages b))
  ({ sub with postedMessages := sub.postedMessages ++
      survivors.map (fun b =>
        { discordMessageId := sendId b.message, youtubeMessageIds := b.postIds }) },
   survivors.map (fun b => { channel := sub.discordChannel, text := b.message }))

/-- The prefix fallback at the top of `processYTChatMessages`: a subscriber
with no stored prefixes uses `DEFAULT_CHAT_PREFIXES`. -/
def effectiveChatPrefixes (sub : Subscriber) : List String :=
  if sub.chatPrefixes.length > 0 then sub.chatPrefixes else DEFAULT_CHAT_PREFIXES

/-- `processYTChatMessages` restricted to one subscriber: resolve the effective
prefixes, batch the incoming messages, and deliver the batches not yet in the
ledger.  (The source's early return when `batchedMessages.length === 0` is the
same as delivering the empty batch list.) -/
def processSubscriber (sendId : String → String) (messages : List ChatMessage)
    (sub : Subscriber) : Subscriber × List SinkCall :=
  deliverBatches sendId sub (prepareBatchTLMessages messages (effectiveChatPrefixes sub))

/-- The subscriber loop of `processYTChatMessages`, returning the updated
subscribers and all sink calls in order. -/
def processYTChatMessages (sendId : String → String) (messages : List ChatMessage) :
    List Subscriber → List Subscriber × List SinkCall
  | [] => ([], [])
  | sub :: rest =>
      let this := processSubscriber sendId messages sub
      let others := processYTChatMessages sendId messages rest
      (this.1 :: others.1, this.2 ++ others.2)

/-- Characterisation of the ledger lookup. -/
theorem alreadyDelivered_iff (posted : List PostedMessage) (batch : Batch) :
    alreadyDelivered posted batch = true ↔
      ∃ pm ∈ posted, ∃ ytId ∈ pm.youtubeMessageIds, ytId ∈ batch.postIds := by
  simp [alreadyDelivered, List.any_eq_true]

/-- The ledger lookup is monotone under appending records. -/
theorem alreadyDelivered_append_left (posted extra : List PostedMessage) (batch : Batch)
    (h : alreadyDelivered posted batch = true) :
    alreadyDelivered (posted ++ extra) batch = true := by
  simp only [alreadyDelivered, List.any_append, Bool.or_eq_true]
  exact Or.inl h

/-- After one delivery pass, every processed batch with a nonempty id set is
flagged by the ledger: either it was already flagged on entry, or its own
record was appended. -/
theorem deliverBatches_already (sendId : String → String) (sub : Subscriber)
    (batches : List Batch) :
    ∀ b ∈ batches, b.postIds ≠ [] →
      alreadyDelivered (deliverBatches sendId sub batches).1.postedMessages b = true := by
  intro b hb hne
  show alreadyDelivered (sub.postedMessages ++ _) b = true
  by_cases hprev : alreadyDelivered sub.postedMessages b = true
  · exact alreadyDelivered_append_left _ _ _ hprev
  · have hmem : b ∈ batches.filter (fun c => !(alreadyDelivered sub.postedMessages c)) := by
      rw [List.mem_filter]
      exact ⟨hb, by simp [hprev]⟩
    rcases List.exists_mem_of_ne_nil b.postIds hne with ⟨x, hx⟩
    rw [alreadyDelivered_iff]
    refine ⟨{ discordMessageId := sendId b.message, youtubeMessageIds := b.postIds },
      ?_, x, hx, hx⟩
    rw [List.mem_append]
    right
    exact List.mem_map_of_mem _ hmem

/-- A delivery pass over batches that are all already flagged makes no sink
call. -/
theorem deliverBatches_second_empty (sendId : String → String) (sub : Subscriber)
    (batches : List Batch)
    (h : ∀ b ∈ batches, alreadyDelivered sub.postedMessages b = true) :
    (deliverBatches sendId sub batches).2 = [] := by
  show (batches.filter (fun b => !(alreadyDelivered sub.postedMessages b))).map _ = []
  have hnil : batches.filter (fun b => !(alreadyDelivered sub.postedMessages b)) = [] := by
    rw [List.filter_eq_nil_iff]
    intro a ha
    simp [h a ha]
  rw [hnil]
  rfl

/-- C1: the ledger lookup before each delivery attempt is true iff an
identifier covered by the batch appears in a previously recorded delivery for
that subscriber, and a positive lookup skips delivery, so processing the same
covered-identifier sets a second time (e.g. the same page fetched again)
produces no further sink call for that subscriber. -/
theorem dedup_ledger_idempotent (sendId : String → String)
    (messages : List ChatMessage) (sub : Subscriber) :
    (∀ (posted : List PostedMessage) (batch : Batch),
        alreadyDelivered posted batch = true ↔
          ∃ pm ∈ posted, ∃ ytId ∈ pm.youtubeMessageIds, ytId ∈ batch.postIds) ∧
    (∀ (sub0 : Subscriber) (batches : List Batch),
        (∀ b ∈ batches, alreadyDelivered sub0.postedMessages b = true) →
        (deliverBatches sendId sub0 batches).2 = []) ∧
    (processSubscriber sendId messages (processSubscriber sendId messages sub).1).2 = [] := by
  refine ⟨alreadyDelivered_iff, fun sub0 batches h =>
    deliverBatches_second_empty sendId sub0 batches h, ?_⟩
  have heff : effectiveChatPrefixes (processSubscriber sendId messages sub).1
      = effectiveChatPrefixes sub := rfl
  show (deliverBatches sendId (processSubscriber sendId messages sub).1
      (prepareBatchTLMessages messages
        (effectiveChatPrefixes (processSubscriber sendId messages sub).1))).2 = []
  rw [heff]
  apply deliverBatches_second_empty
  intro b hb
  exact deliverBatches_already sendId sub _ b hb
    (prepareBatchTLMessages_postIds_ne_nil _ _ b hb)

/-- A subscriber whose ledger already records the YouTube message id "y1". -/
def subLedger : Subscriber :=
  { discordChannelId := "d", discordChannel := "chan", chatPrefixes := [],
    postedMessages := [{ discordMessageId := "m0", youtubeMessageIds := ["y1"] }] }

/-- A batch covering the already-recorded id "y1". -/
def batchY1 : Batch := { message := "line", postIds := ["y1"] }

theorem dedup_ledger_idempotent_witness :
    (∀ b ∈ [batchY1], alreadyDelivered subLedger.postedMessages b = true) ∧
    (deliverBatches (fun txt => txt) subLedger [batchY1]).2 = [] :=
  ⟨by decide,
   (dedup_ledger_idempotent (fun txt => txt) [] subLedger).2.1 subLedger [batchY1]
     (by decide)⟩

/-- One entry of `trackedVids`.  `nextPageToken` is absent (undefined) until
the first successful fetch. -/
structure TrackedStream where
  liveChatId : String
  nextPageToken : Option String
  pollTime : Int
  subscribers : List Subscriber
deriving DecidableEq, Repr

/-- The module-level mutable state: `trackedVids` (an object keyed by video id,
modelled as an association list with unique keys in insertion order) and the
`scheduledChatRequests` queue. -/
structure AppState where
  trackedVids : List (String × TrackedStream)
  scheduledChatRequests : List String
deriving DecidableEq, Repr

/-- `trackedVids[videoId]` (`undefined` becomes `none`). -/
def lookupVid (state : AppState) (videoId : String) : Option TrackedStream :=
  state.trackedVids.lookup videoId

/-- `delete trackedVids[videoId]`. -/
def eraseVid (state : AppState) (videoId : String) : AppState :=
  { state with trackedVids := state.trackedVids.filter (fun kv => !(kv.1 == videoId)) }

/-- In-place update of `trackedVids[videoId]`. -/
def updateVid (state : AppState) (videoId : String) (f : TrackedStream → TrackedStream) :
    AppState :=
  { state with trackedVids :=
      state.trackedVids.map (fun kv => if kv.1 == videoId then (kv.1, f kv.2) else kv) }

/-- The failure notification of `registerVideoSubscriber`. -/
def noLiveChatMsg (videoId : String) : String :=
  "Couldn\x27t find a live chat for video \x60" ++ videoId ++
    "\x60, is it a livestream?\nOr couldn\x27t talk with YouTube\x27s servers."

/-- The success notification of `registerVideoSubscriber`. -/
def listeningMsg (videoId : String) : String :=
  "Listening for translations for livestream: \x60" ++ videoId ++ "\x60" ++
    "\nStop with \x60!tlstop\x60, set prefixes to listen for with \x60!tlprefix\x60" ++
    " (Defaults: \x60" ++ String.intercalate " " DEFAULT_CHAT_PREFIXES ++ "\x60)"

/-- The predicate passed to `_.findIndex` in `registerVideoSubscriber`.  In the
source the arrow function body is a block statement (`{ sub.discordChannelId
=== discordChannelId; }`) with no `return`, so the comparison's value is
discarded, the callback returns `undefined`, and `findIndex` treats it as
false. -/
def blockArrowCallback (comparison : Bool) : Bool :=
  false

/-- The `hasExistingSub` test of `registerVideoSubscriber`
(`_.findIndex(...) !== -1`). -/
def hasExistingSub (subscribers : List Subscriber) (discordChannelId : String) : Bool :=
  (subscribers.findIdx? (fun sub =>
    blockArrowCallback (sub.discordChannelId == discordChannelId))).isSome

/-- `registerVideoSubscriber(videoId, discordChannelId, discordChannel)`.  The
awaited `fetchChatId(videoId)` result is passed in as `fetchChatIdResult`
(`none` models `null`).  Returns the new state, the sink calls made, and the
function's return value (the live chat id, or `null`). -/
def registerVideoSubscriber (state : AppState) (videoId discordChannelId discordChannel : String)
    (fetchChatIdResult : Option String) : AppState × List SinkCall × Option String :=
  let tracked : Option AppState :=
    if (lookupVid state videoId).isNone then
      if jsIsEmptyOptStr fetchChatIdResult then
        none
      else
        some { state with
          trackedVids := state.trackedVids ++ [(videoId,
            { liveChatId := fetchChatIdResult.getD "",
              nextPageToken := none,
              pollTime := LIVE_CHAT_REFRESH_TIME,
              subscribers := [] })],
          scheduledChatRequests := state.scheduledChatRequests ++ [videoId] }
    else
      some state
  match tracked with
  | none =>
      (state, [{ channel := discordChannel, text := noLiveChatMsg videoId }], none)
  | some state1 =>
      let state2 := updateVid state1 videoId (fun vid =>
        { vid with subscribers :=
            if hasExistingSub vid.subscribers discordChannelId then
              vid.subscribers
            else
              vid.subscribers ++ [{ discordChannelId := discordChannelId,
                                    discordChannel := discordChannel,
                                    chatPrefixes := [],
                                    postedMessages := [] }] })
      (state2, [{ channel := discordChannel, text := listeningMsg videoId }],
       (lookupVid state2 videoId).map TrackedStream.liveChatId)

/-- The confirmation notification of the unsubscribe command. -/
def unsubscribeMsg : String :=
  "No longer listening for translations in this channel."

/-- The `!tlstop` branch of `handleDiscordMsg`: `_.remove` every subscriber
whose channel id equals the commanding channel's, in every tracked video, then
confirm. -/
def unsubscribeAll (state : AppState) (channelId channel : String) :
    AppState × List SinkCall :=
  ({ state with trackedVids := state.trackedVids.map (fun kv =>
      (kv.1, { kv.2 with subscribers :=
        kv.2.subscribers.filter (fun sub => !(sub.discordChannelId == channelId)) })) },
   [{ channel := channel, text := unsubscribeMsg }])

/-- Outcome of the `!tlprefix` command branch. -/
inductive CmdOutcome where
  | ok
  | invalidFormat
deriving DecidableEq, Repr

/-- The usage-hint notification of the `!tlprefix` branch. -/
def prefixUsageMsg : String :=
  "Couldn\x27t set translation prefixes!\nFormat (space-separated): \x60!tlprefix [ES] ES:\x60"

/-- The success notification of the `!tlprefix` branch. -/
def prefixAcceptedMsg (listeningTokens : List String) : String :=
  "Now listening for translation prefixes: \x60" ++
    String.intercalate " " listeningTokens ++ "\x60"

/-- The `!tlprefix` branch of `handleDiscordMsg`.  `msgParts` is the command
message split on a single space, so `msgParts.drop 1` is the token list (the
source clears `sub.chatPrefixes` and pushes `msgParts[1..]`, which is that same
list, and computes `listeningPrefixes = _.slice(msgParts, 1)` for the
notification). -/
def setPrefixesCmd (state : AppState) (channelId channel : String)
    (msgParts : List String) : AppState × List SinkCall × CmdOutcome :=
  if 2 ≤ msgParts.length ∧ 0 < (msgParts.getD 1 "").length then
    let listeningTokens := msgParts.drop 1
    ({ state with trackedVids := state.trackedVids.map (fun kv =>
        (kv.1, { kv.2 with subscribers := kv.2.subscribers.map (fun sub =>
          if sub.discordChannelId == channelId then
            { sub with chatPrefixes := listeningTokens }
          else
            sub) })) },
     [{ channel := channel, text := prefixAcceptedMsg listeningTokens }],
     CmdOutcome.ok)
  else
    (state, [{ channel := channel, text := prefixUsageMsg }], CmdOutcome.invalidFormat)

/-- One error list entry of a YouTube API error response. -/
structure ErrorItem where
  reason : String
deriving DecidableEq, Repr

/-- The `error` field of a failed `fetchMessages` call. -/
structure FetchError where
  errors : List ErrorItem
deriving DecidableEq, Repr

/-- The resolved value of the awaited `fetchMessages` call: either the page
data, or (`error` set) the failure object `{ messages: [], error }`. -/
structure FetchResult where
  messages : List ChatMessage
  nextPageToken : Option String
  offlineAt : Option String
  pollingIntervalMillis : Int
  error : Option FetchError
deriving DecidableEq, Repr

/-- The stream-ended notification of `refreshLiveChat`. -/
def endedMsg (videoId : String) : String :=
  "Livestream \x60" ++ videoId ++ "\x60 has ended, stopping listening."

/-- The quota-stop notification of `refreshLiveChat`. -/
def quotaStopMsg (videoId : String) : String :=
  "Stopped listening for livestream: \x60" ++ videoId ++
    "\x60, couldn\x27t talk with YouTube\x27s servers."

/-- What one `refreshLiveChat` call did: the new state, the sink calls, whether
the upstream fetch was performed, and the deferred re-enqueue
(`setTimeout(() => scheduledChatRequests.push(videoId), pollTime)`) if one was
scheduled. -/
structure RefreshOutput where
  state : AppState
  sinkCalls : List SinkCall
  didFetch : Bool
  reenqueue : Option (String × Int)
deriving DecidableEq, Repr

/-- `refreshLiveChat(videoId)`.  The awaited `fetchMessages` result is passed
in as `fetched`; it is consumed only on the path that actually fetches. -/
def refreshLiveChat (sendId : String → String) (state : AppState) (videoId : String)
    (fetched : FetchResult) : RefreshOutput :=
  match lookupVid state videoId with
  | none =>
      { state := state, sinkCalls := [], didFetch := false, reenqueue := none }
  | some vid =>
      if vid.subscribers.length == 0 then
        { state := eraseVid state videoId, sinkCalls := [], didFetch := false,
          reenqueue := none }
      else if jsIsEmptyOptStr fetched.offlineAt then
        match fetched.error with
        | none =>
            let newPollTime :=
              if fetched.pollingIntervalMillis > LIVE_CHAT_REFRESH_TIME then
                fetched.pollingIntervalMillis
              else
                LIVE_CHAT_REFRESH_TIME
            let processed := processYTChatMessages sendId fetched.messages vid.subscribers
            { state := updateVid state videoId (fun v =>
                { v with nextPageToken := fetched.nextPageToken,
                         pollTime := newPollTime,
                         subscribers := processed.1 }),
              sinkCalls := processed.2,
              didFetch := true,
              reenqueue := if newPollTime > 0 then some (videoId, newPollTime) else none }
        | some e =>
            if e.errors.any (fun err => err.reason == "quotaExceeded") then
              { state := eraseVid state videoId,
                sinkCalls := vid.subscribers.map (fun sub =>
                  { channel := sub.discordChannel, text := quotaStopMsg videoId }),
                didFetch := true,
                reenqueue := none }
            else
              { state := state, sinkCalls := [], didFetch := true,
                reenqueue := if vid.pollTime > 0 then some (videoId, vid.pollTime) else none }
      else
        { state := eraseVid state videoId,
          sinkCalls := vid.subscribers.map (fun sub =>
            { channel := sub.discordChannel, text := endedMsg videoId }),
          didFetch := true,
          reenqueue := none }

/-- `checkSendLiveChatRequest()`: skip when the queue is empty, otherwise
`shift` the first video id and refresh it. -/
def checkSendLiveChatRequest (sendId : String → String) (state : AppState)
    (fetched : FetchResult) : RefreshOutput :=
  match state.scheduledChatRequests with
  | [] =>
      { state := state, sinkCalls := [], didFetch := false, reenqueue := none }
  | videoId :: rest =>
      refreshLiveChat sendId { state with scheduledChatRequests := rest } videoId fetched

/-- The empty initial state. -/
def st0 : AppState := { trackedVids := [], scheduledChatRequests := [] }

/-- C3 (code bug): the duplicate-subscriber guard's `findIndex` callback never
returns its comparison, so `hasExistingSub` is always false and a second
subscribe call for the same (stream, destination) pair appends a second
Subscriber record instead of being a no-op. -/
theorem double_subscribe_duplicates_record :
    ((lookupVid (registerVideoSubscriber
          (registerVideoSubscriber st0 "v" "d" "chan" (some "chat1")).1
          "v" "d" "chan" (some "chat1")).1 "v").map (fun vid =>
        (vid.subscribers.filter (fun sub => sub.discordChannelId == "d")).length))
      = some 2 := by
  decide

/-- C9: dequeuing a video id that is no longer tracked performs no fetch, makes
no sink call, schedules no re-enqueue and leaves the state unchanged (except
for the dequeue itself in the `checkSendLiveChatRequest` wrapper). -/
theorem stale_queue_entry_noop (sendId : String → String) (state : AppState)
    (videoId : String) (fetched : FetchResult)
    (h : lookupVid state videoId = none) :
    refreshLiveChat sendId state videoId fetched =
      { state := state, sinkCalls := [], didFetch := false, reenqueue := none } ∧
    (∀ rest, state.scheduledChatRequests = videoId :: rest →
      checkSendLiveChatRequest sendId state fetched =
        { state := { state with scheduledChatRequests := rest }, sinkCalls := [],
          didFetch := false, reenqueue := none }) := by
  constructor
  · simp [refreshLiveChat, h]
  · intro rest hq
    have h2 : lookupVid { state with scheduledChatRequests := rest } videoId = none := h
    simp [checkSendLiveChatRequest, hq, refreshLiveChat, h2]

/-- A fetch result that is never consumed. -/
def dummyFetch : FetchResult :=
  { messages := [], nextPageToken := none, offlineAt := none,
    pollingIntervalMillis := 0, error := none }

theorem stale_queue_entry_noop_witness :
    lookupVid st0 "v" = none ∧
    refreshLiveChat (fun txt => txt) st0 "v" dummyFetch =
      { state := st0, sinkCalls := [], didFetch := false, reenqueue := none } :=
  ⟨by decide, (stale_queue_entry_noop (fun txt => txt) st0 "v" dummyFetch (by decide)).1⟩

/-- The stream-ended wording differs from the quota-stop wording for every
video id (the fixed parts around the id have different lengths). -/
theorem endedMsg_ne_quotaStopMsg (videoId : String) :
    endedMsg videoId ≠ quotaStopMsg videoId := by
  intro hEq
  have hlen := congrArg String.length hEq
  rw [endedMsg, quotaStopMsg, String.length_append, String.length_append,
    String.length_append, String.length_append] at hlen
  have e1 : ("Livestream \x60" : String).length = 12 := rfl
  have e2 : ("\x60 has ended, stopping listening." : String).length = 32 := rfl
  have e3 : ("Stopped listening for livestream: \x60" : String).length = 35 := rfl
  have e4 : ("\x60, couldn\x27t talk with YouTube\x27s servers." : String).length = 40 := rfl
  rw [e1, e2, e3, e4] at hlen
  omega

/-- C8: on a terminal fetch result for a tracked stream (stream ended, or a
quota-exceeded API error), every current subscriber receives exactly one
notification, the wording of the two cases differs, the stream is removed from
the tracking table, and no re-enqueue is scheduled. -/
theorem terminal_fetch_results (sendId : String → String) (state : AppState)
    (videoId : String) (vid : TrackedStream) (fetched : FetchResult)
    (htrack : lookupVid state videoId = some vid) (hsubs : vid.subscribers ≠ []) :
    (∀ s, fetched.offlineAt = some s → s.isEmpty = false →
      refreshLiveChat sendId state videoId fetched =
        { state := eraseVid state videoId,
          sinkCalls := vid.subscribers.map (fun sub =>
            { channel := sub.discordChannel, text := endedMsg videoId }),
          didFetch := true, reenqueue := none }) ∧
    (∀ e, jsIsEmptyOptStr fetched.offlineAt = true → fetched.error = some e →
      e.errors.any (fun err => err.reason == "quotaExceeded") = true →
      refreshLiveChat sendId state videoId fetched =
        { state := eraseVid state videoId,
          sinkCalls := vid.subscribers.map (fun sub =>
            { channel := sub.discordChannel, text := quotaStopMsg videoId }),
          didFetch := true, reenqueue := none }) ∧
    endedMsg videoId ≠ quotaStopMsg videoId := by
  have hlen : (vid.subscribers.length == 0) = false := by
    simpa using hsubs
  refine ⟨?_, ?_, endedMsg_ne_quotaStopMsg videoId⟩
  · intro s hoff hs
    have hne : jsIsEmptyOptStr fetched.offlineAt = false := by
      simp [jsIsEmptyOptStr, hoff, hs]
    simp [refreshLiveChat, htrack, hlen, hne]
  · intro e hoff herr hq
    simp [refreshLiveChat, htrack, hlen, hoff, herr, hq]

/-- A stream with two subscribers. -/
def stTwo : AppState :=
  { trackedVids := [("v",
      { liveChatId := "c", nextPageToken := none, pollTime := 20000,
        subscribers :=
          [{ discordChannelId := "d1", discordChannel := "ch1",
             chatPrefixes := [], postedMessages := [] },
           { discordChannelId := "d2", discordChannel := "ch2",
             chatPrefixes := [], postedMessages := [] }] })],
    scheduledChatRequests := [] }

/-- The vid tracked in `stTwo`. -/
def vidTwo : TrackedStream :=
  { liveChatId := "c", nextPageToken := none, pollTime := 20000,
    subscribers :=
      [{ discordChannelId := "d1", discordChannel := "ch1",
         chatPrefixes := [], postedMessages := [] },
       { discordChannelId := "d2", discordChannel := "ch2",
         chatPrefixes := [], postedMessages := [] }] }

/-- A fetch result carrying the stream-ended marker. -/
def endedFetch : FetchResult :=
  { messages := [], nextPageToken := none, offlineAt := some "2021-07-01T00:00:00Z",
    pollingIntervalMillis := 0, error := none }

theorem terminal_fetch_results_witness :
    lookupVid stTwo "v" = some vidTwo ∧
    vidTwo.subscribers ≠ [] ∧
    endedFetch.offlineAt = some "2021-07-01T00:00:00Z" ∧
    ("2021-07-01T00:00:00Z" : String).isEmpty = false ∧
    refreshLiveChat (fun txt => txt) stTwo "v" endedFetch =
      { state := eraseVid stTwo "v",
        sinkCalls := vidTwo.subscribers.map (fun sub =>
          { channel := sub.discordChannel, text := endedMsg "v" }),
        didFetch := true, reenqueue := none } :=
  ⟨by decide, by decide, by decide, by decide,
   (terminal_fetch_results (fun txt => txt) stTwo "v" vidTwo endedFetch
      (by decide) (by decide)).1 "2021-07-01T00:00:00Z" (by decide) (by decide)⟩

/-- A single subscriber for destination `d`. -/
def subD : Subscriber :=
  { discordChannelId := "d", discordChannel := "chan", chatPrefixes := [],
    postedMessages := [] }

/-- A state tracking one stream whose only subscriber is `subD`. -/
def stOne : AppState :=
  { trackedVids := [("v",
      { liveChatId := "c", nextPageToken := none, pollTime := 20000,
        subscribers := [subD] })],
    scheduledChatRequests := [] }

/-- C6 counterexample: when the `!tlstop` branch completes, the stream whose
subscriber list it emptied is still present in the tracking table (it is only
destroyed at its next poll step), contradicting the claim that such a stream
is no longer present once unsubscribe completes. -/
theorem unsubscribe_leaves_emptied_stream_tracked :
    lookupVid (unsubscribeAll stOne "d" "chan").1 "v" =
      some { liveChatId := "c", nextPageToken := none, pollTime := 20000,
             subscribers := [] } := by
  decide

/-- C6 amended: unsubscribe removes every Subscriber of the destination from
every tracked stream and keeps the table's keys (an emptied stream stays in the
table); the emptied stream is then destroyed at its next poll step, which makes
no fetch, no sink call and no re-enqueue. -/
theorem unsubscribe_removes_subscriber_everywhere (state : AppState)
    (channelId channel : String) :
    (∀ kv ∈ (unsubscribeAll state channelId channel).1.trackedVids,
        ∀ sub ∈ kv.2.subscribers, sub.discordChannelId ≠ channelId) ∧
    ((unsubscribeAll state channelId channel).1.trackedVids.map Prod.fst
        = state.trackedVids.map Prod.fst) ∧
    ((unsubscribeAll state channelId channel).1.scheduledChatRequests
        = state.scheduledChatRequests) ∧
    (∀ (sendId : String → String) (st : AppState) (videoId : String)
        (vid : TrackedStream) (fetched : FetchResult),
      lookupVid st videoId = some vid → vid.subscribers = [] →
      refreshLiveChat sendId st videoId fetched =
        { state := eraseVid st videoId, sinkCalls := [], didFetch := false,
          reenqueue := none }) := by
  refine ⟨?_, ?_, rfl, ?_⟩
  · intro kv hkv sub hsub
    simp only [unsubscribeAll] at hkv
    rcases List.mem_map.mp hkv with ⟨kv0, hkv0, rfl⟩
    have h2 := (List.mem_filter.mp hsub).2
    simpa using h2
  · simp [unsubscribeAll]
  · intro sendId st videoId vid fetched htrack hempty
    simp [refreshLiveChat, htrack, hempty]

theorem unsubscribe_removes_subscriber_everywhere_witness :
    lookupVid (unsubscribeAll stOne "d" "chan").1 "v" =
      some { liveChatId := "c", nextPageToken := none, pollTime := 20000,
             subscribers := [] } ∧
    refreshLiveChat (fun txt => txt) (unsubscribeAll stOne "d" "chan").1 "v" dummyFetch =
      { state := eraseVid (unsubscribeAll stOne "d" "chan").1 "v", sinkCalls := [],
        didFetch := false, reenqueue := none } :=
  ⟨by decide,
   (unsubscribe_removes_subscriber_everywhere stOne "d" "chan").2.2.2
     (fun txt => txt) (unsubscribeAll stOne "d" "chan").1 "v"
     { liveChatId := "c", nextPageToken := none, pollTime := 20000, subscribers := [] }
     dummyFetch (by decide) (by decide)⟩

/-- C7 counterexample: the validity check of the `!tlprefix` branch inspects
only the first token, so the token list `["", "X"]` (command
`"!tlprefix  X"` with a doubled space) is rejected as `InvalidFormat` even
though it contains the non-empty token `"X"`. -/
theorem setPrefixes_rejects_despite_nonempty_token :
    (setPrefixesCmd stOne "d" "chan" ["!tlprefix", "", "X"]).2.2
        = CmdOutcome.invalidFormat ∧
    "X" ∈ (["!tlprefix", "", "X"].drop 1) ∧ "X" ≠ "" := by
  decide

/-- C7 amended: the command returns `InvalidFormat` iff the token list is empty
or its FIRST token is empty; on the error path the whole state (in particular
every stored prefix set) is unchanged; on success the prefix set of every
Subscriber of the destination is replaced wholesale by the token list, across
all tracked streams, and no other subscriber is touched. -/
theorem setPrefixes_validation_and_replacement (state : AppState)
    (channelId channel : String) (msgParts : List String) :
    ((setPrefixesCmd state channelId channel msgParts).2.2 = CmdOutcome.invalidFormat ↔
        (msgParts.drop 1 = [] ∨ msgParts.getD 1 "" = "")) ∧
    ((setPrefixesCmd state channelId channel msgParts).2.2 = CmdOutcome.invalidFormat →
        (setPrefixesCmd state channelId channel msgParts).1 = state) ∧
    ((setPrefixesCmd state channelId channel msgParts).2.2 = CmdOutcome.ok →
        List.Forall₂ (fun kv kv' => kv'.1 = kv.1 ∧
            List.Forall₂ (fun sub sub' =>
              (sub.discordChannelId = channelId →
                sub' = { sub with chatPrefixes := msgParts.drop 1 }) ∧
              (sub.discordChannelId ≠ channelId → sub' = sub))
              kv.2.subscribers kv'.2.subscribers)
          state.trackedVids
          (setPrefixesCmd state channelId channel msgParts).1.trackedVids) := by
  by_cases hc : 2 ≤ msgParts.length ∧ 0 < (msgParts.getD 1 "").length
  · refine ⟨?_, ?_, ?_⟩
    · simp only [setPrefixesCmd, if_pos hc]
      constructor
      · intro h
        exact absurd h (by simp)
      · intro h
        rcases h with h | h
        · rw [List.drop_eq_nil_iff] at h
          omega
        · rw [h] at hc
          simp at hc
    · simp only [setPrefixesCmd, if_pos hc]
      intro h
      exact absurd h (by simp)
    · intro _
      simp only [setPrefixesCmd, if_pos hc]
      rw [List.forall₂_map_right_iff, List.forall₂_same]
      intro kv _
      refine ⟨rfl, ?_⟩
      rw [List.forall₂_map_right_iff, List.forall₂_same]
      intro sub _
      by_cases hid : sub.discordChannelId = channelId
      · simp [hid]
      · simp [hid]
  · refine ⟨?_, ?_, ?_⟩
    · simp only [setPrefixesCmd, if_neg hc]
      constructor
      · intro _
        rcases Nat.lt_or_ge msgParts.length 2 with hlt | hge
        · left
          rw [List.drop_eq_nil_iff]
          omega
        · right
          have : ¬0 < (msgParts.getD 1 "").length := fun hgt => hc ⟨hge, hgt⟩
          have hz : (msgParts.getD 1 "").length = 0 := by omega
          cases he : msgParts.getD 1 "" with
          | mk data =>
            rw [he] at hz
            cases data with
            | nil => rfl
            | cons c cs => simp [String.length] at hz
      · intro _
        trivial
    · intro _
      simp only [setPrefixesCmd, if_neg hc]
    · simp only [setPrefixesCmd, if_neg hc]
      intro h
      exact absurd h (by simp)

theorem setPrefixes_validation_and_replacement_witness :
    (setPrefixesCmd stOne "d" "chan" ["!tlprefix", "X"]).2.2 = CmdOutcome.ok ∧
    List.Forall₂ (fun kv kv' => kv'.1 = kv.1 ∧
        List.Forall₂ (fun sub sub' =>
          (sub.discordChannelId = "d" →
            sub' = { sub with chatPrefixes := ["!tlprefix", "X"].drop 1 }) ∧
          (sub.discordChannelId ≠ "d" → sub' = sub))
          kv.2.subscribers kv'.2.subscribers)
      stOne.trackedVids
      (setPrefixesCmd stOne "d" "chan" ["!tlprefix", "X"]).1.trackedVids :=
  ⟨by decide,
   (setPrefixes_validation_and_replacement stOne "d" "chan" ["!tlprefix", "X"]).2.2
     (by decide)⟩

/-- Any subscriber present after the subscriber-append step of
`registerVideoSubscriber` either was already subscribed to that stream or is
the freshly created record, whose prefix list is empty. -/
theorem mem_subscribers_after_append (subs : List Subscriber) (chId ch : String)
    (sub : Subscriber)
    (hsub : sub ∈ (if hasExistingSub subs chId then subs
        else subs ++ [{ discordChannelId := chId, discordChannel := ch,
                        chatPrefixes := [], postedMessages := [] }])) :
    sub ∈ subs ∨ sub.chatPrefixes = [] := by
  split at hsub
  · exact Or.inl hsub
  · rcases List.mem_append.mp hsub with h | h
    · exact Or.inl h
    · right
      rw [List.mem_singleton.mp h]

/-- Every subscriber record found in the table after a `registerVideoSubscriber`
call either already belonged to the same stream before the call, or has an
empty prefix list (it is the freshly created record). -/
theorem register_created_records_have_empty_prefixes (st : AppState)
    (videoId chId ch : String) (fetchChatIdResult : Option String) :
    ∀ kv' ∈ (registerVideoSubscriber st videoId chId ch fetchChatIdResult).1.trackedVids,
      ∀ sub ∈ kv'.2.subscribers,
        (∃ kv ∈ st.trackedVids, kv.1 = kv'.1 ∧ sub ∈ kv.2.subscribers) ∨
          sub.chatPrefixes = [] := by
  intro kv' hkv' sub hsub
  by_cases h1 : (lookupVid st videoId).isNone = true
  · by_cases h2 : jsIsEmptyOptStr fetchChatIdResult = true
    · simp only [registerVideoSubscriber, h1, h2, if_true] at hkv'
      exact Or.inl ⟨kv', hkv', rfl, hsub⟩
    · simp only [registerVideoSubscriber, h1, h2, if_true, Bool.false_eq_true,
        if_false, updateVid, List.map_append] at hkv'
      rcases List.mem_append.mp hkv' with hm | hm
      · rcases List.mem_map.mp hm with ⟨kv0, hkv0, rfl⟩
        by_cases hk : (kv0.1 == videoId) = true
        · rw [if_pos hk] at hsub ⊢
          rcases mem_subscribers_after_append _ _ _ _ hsub with hin | hpre
          · exact Or.inl ⟨kv0, hkv0, rfl, hin⟩
          · exact Or.inr hpre
        · rw [if_neg hk] at hsub ⊢
          exact Or.inl ⟨kv0, hkv0, rfl, hsub⟩
      · rcases List.mem_map.mp hm with ⟨kv0, hkv0, rfl⟩
        have hkv0' : kv0 = (videoId,
            { liveChatId := fetchChatIdResult.getD "", nextPageToken := none,
              pollTime := LIVE_CHAT_REFRESH_TIME, subscribers := [] }) := by
          simpa using hkv0
        subst hkv0'
        simp only [beq_self_eq_true, if_true] at hsub
        rcases mem_subscribers_after_append _ _ _ _ hsub with hin | hpre
        · simp at hin
        · exact Or.inr hpre
  · simp only [registerVideoSubscriber, h1, Bool.false_eq_true, if_false,
      updateVid] at hkv'
    rcases List.mem_map.mp hkv' with ⟨kv0, hkv0, rfl⟩
    by_cases hk : (kv0.1 == videoId) = true
    · rw [if_pos hk] at hsub ⊢
      rcases mem_subscribers_after_append _ _ _ _ hsub with hin | hpre
      · exact Or.inl ⟨kv0, hkv0, rfl, hin⟩
      · exact Or.inr hpre
    · rw [if_neg hk] at hsub ⊢
      exact Or.inl ⟨kv0, hkv0, rfl, hsub⟩

/-- C10: the `!tlprefix` command leaves the request queue unchanged and, on
every stream, changes at most the `chatPrefixes` field of subscribers of the
commanding destination (everything else, including other subscribers'
prefixes, is untouched); a Subscriber record created by a later subscribe call
starts with an empty prefix list; an empty prefix list falls back to the
default prefixes; and a `!tlprefix` issued by a destination with no current
subscription changes no state even though the success notification is still
sent. -/
theorem setPrefixes_frame_effects (state : AppState) (channelId channel : String)
    (msgParts : List String) :
    ((setPrefixesCmd state channelId channel msgParts).1.scheduledChatRequests
        = state.scheduledChatRequests) ∧
    (List.Forall₂ (fun kv kv' => kv'.1 = kv.1 ∧ kv'.2.liveChatId = kv.2.liveChatId ∧
        kv'.2.nextPageToken = kv.2.nextPageToken ∧ kv'.2.pollTime = kv.2.pollTime ∧
        List.Forall₂ (fun sub sub' =>
          sub'.discordChannelId = sub.discordChannelId ∧
          sub'.discordChannel = sub.discordChannel ∧
          sub'.postedMessages = sub.postedMessages ∧
          (sub.discordChannelId ≠ channelId → sub'.chatPrefixes = sub.chatPrefixes))
          kv.2.subscribers kv'.2.subscribers)
        state.trackedVids (setPrefixesCmd state channelId channel msgParts).1.trackedVids) ∧
    (∀ (st : AppState) (videoId chId ch : String) (fetchChatIdResult : Option String),
      ∀ kv' ∈ (registerVideoSubscriber st videoId chId ch fetchChatIdResult).1.trackedVids,
        ∀ sub ∈ kv'.2.subscribers,
          (∃ kv ∈ st.trackedVids, kv.1 = kv'.1 ∧ sub ∈ kv.2.subscribers) ∨
            sub.chatPrefixes = []) ∧
    (∀ sub : Subscriber, sub.chatPrefixes = [] →
        effectiveChatPrefixes sub = DEFAULT_CHAT_PREFIXES) ∧
    ((∀ kv ∈ state.trackedVids, ∀ sub ∈ kv.2.subscribers,
        sub.discordChannelId ≠ channelId) →
      (setPrefixesCmd state channelId channel msgParts).1 = state ∧
      ((setPrefixesCmd state channelId channel msgParts).2.2 = CmdOutcome.ok →
        (setPrefixesCmd state channelId channel msgParts).2.1 =
          [{ channel := channel, text := prefixAcceptedMsg (msgParts.drop 1) }])) := by
  by_cases hc : 2 ≤ msgParts.length ∧ 0 < (msgParts.getD 1 "").length
  · refine ⟨by simp only [setPrefixesCmd, if_pos hc], ?_,
      register_created_records_have_empty_prefixes, ?_, ?_⟩
    · simp only [setPrefixesCmd, if_pos hc]
      rw [List.forall₂_map_right_iff, List.forall₂_same]
      intro kv _
      refine ⟨rfl, rfl, rfl, rfl, ?_⟩
      rw [List.forall₂_map_right_iff, List.forall₂_same]
      intro sub _
      by_cases hid : sub.discordChannelId = channelId
      · simp [hid]
      · simp [hid]
    · intro sub hpre
      simp [effectiveChatPrefixes, hpre]
    · intro hno
      constructor
      · simp only [setPrefixesCmd, if_pos hc]
        have hcong : ∀ kv ∈ state.trackedVids,
            (kv.1, { kv.2 with subscribers := kv.2.subscribers.map (fun sub =>
              if sub.discordChannelId == channelId then
                { sub with chatPrefixes := msgParts.drop 1 }
              else
                sub) }) = kv := by
          intro kv hkv
          have hcong2 : ∀ sub ∈ kv.2.subscribers,
              (if sub.discordChannelId == channelId then
                { sub with chatPrefixes := msgParts.drop 1 }
              else
                sub) = sub := by
            intro sub hsub
            rw [if_neg]
            simp only [beq_iff_eq]
            exact hno kv hkv sub hsub
          rw [List.map_congr_left hcong2, List.map_id']
        rw [List.map_congr_left hcong, List.map_id']
      · intro _
        simp only [setPrefixesCmd, if_pos hc]
  · refine ⟨by simp only [setPrefixesCmd, if_neg hc], ?_,
      register_created_records_have_empty_prefixes, ?_, ?_⟩
    · simp only [setPrefixesCmd, if_neg hc]
      rw [List.forall₂_same]
      intro kv _
      refine ⟨rfl, rfl, rfl, rfl, ?_⟩
      rw [List.forall₂_same]
      intro sub _
      exact ⟨rfl, rfl, rfl, fun _ => rfl⟩
    · intro sub hpre
      simp [effectiveChatPrefixes, hpre]
    · intro hno
      refine ⟨by simp only [setPrefixesCmd, if_neg hc], ?_⟩
      intro h
      simp only [setPrefixesCmd, if_neg hc] at h
      exact absurd h (by simp)

theorem setPrefixes_frame_effects_witness :
    (∀ kv ∈ st0.trackedVids, ∀ sub ∈ kv.2.subscribers, sub.discordChannelId ≠ "d") ∧
    (setPrefixesCmd st0 "d" "chan" ["!tlprefix", "X"]).1 = st0 ∧
    ((setPrefixesCmd st0 "d" "chan" ["!tlprefix", "X"]).2.2 = CmdOutcome.ok →
      (setPrefixesCmd st0 "d" "chan" ["!tlprefix", "X"]).2.1 =
        [{ channel := "chan", text := prefixAcceptedMsg (["!tlprefix", "X"].drop 1) }]) :=
  ⟨by decide,
   ((setPrefixes_frame_effects st0 "d" "chan" ["!tlprefix", "X"]).2.2.2.2 (by decide)).1,
   ((setPrefixes_frame_effects st0 "d" "chan" ["!tlprefix", "X"]).2.2.2.2 (by decide)).2⟩

end TLBuddy
